import Mathlib

/-!
Shallow embedding of `core/models.py` from the `proyecto_uni` repository:
the `Event`, `EventAdmin` and `Ticket` Django models and their two
aggregate helper methods `tickets_sold` and `seats_available`.

Conventions of the embedding:
  * Django model instances become Lean structures.  The auto-assigned
    primary key is `Option Nat` (`none` before the storage layer assigns
    one).  Timestamps are `Nat`, decimals are `Int` (a scaled decimal);
    none of the claims depend on decimal arithmetic.
  * The tickets attribute of an Event (installed by
    `Ticket.event = ForeignKey(Event, related_name='tickets')`) is carried
    as `Option (List Ticket)`: `some ts` when the reverse manager resolves
    to the list of ticket rows referencing the event.  The `none` case
    keeps the aggregate methods total on the structure; the running
    program never reaches it, because `Event.tickets` is a data descriptor
    that prohibits direct assignment, so the custom `__init__` attempt to
    store `None` there raises instead of shadowing the manager (see
    `eventInit`).
  * Python expressions that can raise become `Except String` values; the
    string names the Python exception.
-/

/-- Ticket status: the three values of `Ticket.STATUS_CHOICES`
(`PENDING`, `PAID`, `CANCELLED`). -/
inductive TicketStatus where
  | PENDING
  | PAID
  | CANCELLED
deriving DecidableEq, Repr

/-- One row of the `Ticket` model: `event`/`buyer` foreign keys held as
ids, `quantity = PositiveIntegerField(default=1)`, `total` a decimal,
`status`, `purchased_at = auto_now_add` timestamp. -/
structure Ticket where
  id : Option Nat
  eventId : Nat
  buyerId : Nat
  quantity : Nat
  total : Int
  status : TicketStatus
  purchasedAt : Nat
deriving DecidableEq, Repr

/-- One instance of the `Event` model.  `capacity` is
`PositiveIntegerField(null=True)`: `none` means unlimited.  `tickets` is
the instance attribute named by the reverse relation (see module header):
`none` models the Python value `None`. -/
structure Event where
  id : Option Nat
  title : String
  description : String
  location : String
  startDatetime : Nat
  endDatetime : Option Nat
  capacity : Option Nat
  price : Int
  createdAt : Nat
  updatedAt : Nat
  tickets : Option (List Ticket)
deriving DecidableEq, Repr

/-- Total of the `quantity` column over a list of ticket rows. -/
def sumQuantities (ts : List Ticket) : Nat :=
  ts.foldl (fun acc t => acc + t.quantity) 0

/-- Django `QuerySet.aggregate(total=Sum('quantity'))`: the SQL `SUM`
returns `NULL` (here `none`) on an empty set of rows, otherwise the sum. -/
def aggregateSumQuantity (ts : List Ticket) : Option Nat :=
  if ts.isEmpty then none else some (sumQuantities ts)

/-- Python `x or 0` applied to the aggregate result: `None` (and falsy `0`)
become `0`. -/
def orZero : Option Nat → Nat
  | none => 0
  | some n => n

/-- `Event.tickets_sold`: evaluates
`self.tickets.aggregate(total=Sum('quantity'))`, takes `.get('total') or 0`
and converts with `int(...)`.  When the `tickets` attribute holds `None`
the attribute access `.aggregate` raises `AttributeError` (a state the
running program cannot reach: see `eventInit`). -/
def tickets_sold (e : Event) : Except String Int :=
  match e.tickets with
  | none => .error "AttributeError: NoneType object has no attribute aggregate"
  | some ts => .ok (Int.ofNat (orZero (aggregateSumQuantity ts)))

/-- `Event.seats_available`: returns `None` (`ok none`) when `capacity` is
`None`; otherwise computes `sold` by the same aggregate as `tickets_sold`,
sets `available = self.capacity - int(sold)` and returns
`max(available, 0)`.  As in `tickets_sold`, a `None` tickets attribute
would raise `AttributeError`, and only with `capacity` set, because the
capacity test comes first in the source. -/
def seats_available (e : Event) : Except String (Option Int) :=
  match e.capacity with
  | none => .ok none
  | some cap =>
    match e.tickets with
    | none => .error "AttributeError: NoneType object has no attribute aggregate"
    | some ts =>
      let sold : Int := Int.ofNat (orZero (aggregateSumQuantity ts))
      .ok (some (max ((cap : Int) - sold) 0))

/-- `Event.seats_available` viewed as a state transformer on the receiver:
the method body only reads `self.capacity` and `self.tickets`, performs no
assignment and no save, so the instance it returns control over is the
unmodified receiver. -/
def seatsAvailableCall (e : Event) : Except String (Option Int) × Event :=
  (seats_available e, e)

/-- Python error raised by `ReverseManyToOneDescriptor.__set__` when an
instance attribute assignment targets the reverse side of a relation. -/
def reverseDescriptorSetError : String :=
  "TypeError: Direct assignment to the reverse side of a related set is prohibited. Use tickets.set() instead."

/-- `Event.__init__(*args, **kwargs)` executes, in order:
`super().__init__(args, kwargs)` — malformed, since the positional tuple
and the keyword dict travel as two positional field values (into `id` and
`title`), but it completes — then `self.tickets = None`.  `Event.tickets`
is the `ReverseManyToOneDescriptor` installed by
`Ticket.event = ForeignKey(Event, related_name='tickets')`, a data
descriptor whose `__set__` raises the TypeError above on every Django
version this source can run on (`from django.urls import reverse`
requires Django ≥ 1.10).  Construction therefore raises at that line, the
final `self.id = None` is unreachable, and `Event(...)` never returns an
instance, whatever arguments the caller supplies (mirrored by the
parameters here). -/
def eventInit (_title _description _location : String)
    (_startDatetime : Nat) (_endDatetime : Option Nat)
    (_capacity : Option Nat) (_price : Int)
    (_createdAt _updatedAt : Nat) : Except String Event :=
  .error reverseDescriptorSetError

/-- Python value of an instance attribute whose post-construction content
falls outside its column type: the malformed `super().__init__(args,
kwargs)` stores the positional-argument tuple and the keyword dict
themselves as the first two field values, and every later field with no
declared default is left as Python `None`. -/
inductive StrayValue where
  | pyNone
  | argsTuple
  | kwargsDict
deriving DecidableEq, Repr

/-- In-memory object returned by `Ticket(*args, **kwargs)`.  Fields whose
final value fits the column type are typed; the others record the stray
Python value they actually hold. -/
structure TicketInstance where
  id : Option Nat
  eventRef : StrayValue
  buyerRef : StrayValue
  quantity : Nat
  total : StrayValue
  status : TicketStatus
  purchasedAt : StrayValue
deriving DecidableEq, Repr

/-- `Ticket.__init__(*args, **kwargs)`: the malformed
`super().__init__(args, kwargs)` passes the positional tuple and the
keyword dict as two positional field values, so `id` receives the tuple
and `event_id` the keyword dict, and the values the caller supplied
(mirrored by the parameters here) never reach their intended fields: each
remaining field keeps its declared default (`quantity` 1, `status`
PENDING) or Python `None`.  The body then runs `self.id = None` — a plain
attribute assignment, no descriptor involved — which succeeds and
overwrites the tuple, so construction completes. -/
def ticketInit (_eventId _buyerId : Nat) (_quantity : Nat := 1)
    (_total : Int := 0) (_status : TicketStatus := .PENDING)
    (_purchasedAt : Nat := 0) : TicketInstance :=
  { id := none
    eventRef := .kwargsDict
    buyerRef := .pyNone
    quantity := 1
    total := .pyNone
    status := .PENDING
    purchasedAt := .pyNone }

/-- Value constraint enforced by Django's `PositiveIntegerField` (used for
`Ticket.quantity`): the field validates `0 ≤ value ≤ 2147483647`; zero is
accepted despite the field's name. -/
def positiveIntegerFieldValid (q : Int) : Bool :=
  decide (0 ≤ q) && decide (q ≤ 2147483647)

/-- Declared default of `Ticket.quantity = PositiveIntegerField(default=1)`. -/
def ticketQuantityDefault : Nat := 1

/-- One row of the `EventAdmin` model: `user`/`event` foreign keys held as
ids, `assigned_at = auto_now_add` timestamp. -/
structure EventAdminRow where
  userId : Nat
  eventId : Nat
  assignedAt : Nat
deriving DecidableEq, Repr

/-- Whether the stored `EventAdmin` rows already contain the pair
`(user, event)`. -/
def hasAdminPair (rows : List EventAdminRow) (u ev : Nat) : Bool :=
  rows.any fun r => r.userId = u && r.eventId = ev

/-- Modelled from the spec: the storage layer's enforcement of
`EventAdmin.Meta.unique_together = ('user', 'event')` (the declaration is
in `core/models.py`; the enforcing insert lives in the database, not in
this repository).  Inserting a row whose `(user, event)` pair is already
present fails with an integrity error and leaves the table unchanged;
otherwise the row is appended. -/
def insertEventAdmin (rows : List EventAdminRow) (r : EventAdminRow) :
    Option String × List EventAdminRow :=
  if hasAdminPair rows r.userId r.eventId then
    (some "IntegrityError: UNIQUE constraint failed: (user, event)", rows)
  else
    (none, rows ++ [r])

/-- Stored relational state relevant to cascade deletion: the set of event
ids together with the `Ticket` and `EventAdmin` tables. -/
structure DBState where
  eventIds : List Nat
  ticketRows : List Ticket
  adminRows : List EventAdminRow
deriving Repr

/-- Modelled from the spec: the storage layer's `on_delete=CASCADE`
behaviour declared on `Ticket.event` and `EventAdmin.event` (the
declarations are in `core/models.py`; the cascading delete lives in the
database, not in this repository).  Deleting an event removes it and
every `Ticket` and `EventAdmin` row whose event foreign key references
it. -/
def deleteEvent (db : DBState) (eid : Nat) : DBState :=
  { eventIds := db.eventIds.filter (fun i => i ≠ eid)
    ticketRows := db.ticketRows.filter (fun t => t.eventId ≠ eid)
    adminRows := db.adminRows.filter (fun a => a.eventId ≠ eid) }

/-! Concrete sample data used by witnesses. -/

/-- Sample ticket with a given quantity and status. -/
def sampleTicket (q : Nat) (st : TicketStatus) : Ticket :=
  { id := some 1, eventId := 1, buyerId := 1, quantity := q, total := 0,
    status := st, purchasedAt := 0 }

/-- Sample event with given title, capacity and tickets attribute. -/
def sampleEvent (title : String) (cap : Option Nat)
    (ts : Option (List Ticket)) : Event :=
  { id := some 1, title := title, description := "", location := "",
    startDatetime := 0, endDatetime := none, capacity := cap, price := 0,
    createdAt := 0, updatedAt := 0, tickets := ts }

/-! Helper lemmas about the quantity aggregate. -/

theorem sumQuantities_foldl (ts : List Ticket) (acc : Nat) :
    ts.foldl (fun a t => a + t.quantity) acc = acc + sumQuantities ts := by
  induction ts generalizing acc with
  | nil => simp [sumQuantities]
  | cons t l ih =>
    have h1 : sumQuantities (t :: l) = (0 + t.quantity) + sumQuantities l := by
      show List.foldl _ (0 + t.quantity) l = _
      exact ih (0 + t.quantity)
    have h2 : List.foldl (fun a t => a + t.quantity) acc (t :: l)
        = (acc + t.quantity) + sumQuantities l := by
      show List.foldl _ (acc + t.quantity) l = _
      exact ih (acc + t.quantity)
    rw [h2, h1]
    omega

theorem sumQuantities_cons (t : Ticket) (ts : List Ticket) :
    sumQuantities (t :: ts) = t.quantity + sumQuantities ts := by
  show List.foldl _ (0 + t.quantity) ts = _
  rw [sumQuantities_foldl ts (0 + t.quantity)]
  omega

theorem orZero_aggregate (ts : List Ticket) :
    orZero (aggregateSumQuantity ts) = sumQuantities ts := by
  cases ts with
  | nil => rfl
  | cons t l => rfl

theorem sumQuantities_map_status (f : Ticket → TicketStatus) (ts : List Ticket) :
    sumQuantities (ts.map fun t => { t with status := f t }) = sumQuantities ts := by
  induction ts with
  | nil => rfl
  | cons t l ih =>
    rw [List.map_cons, sumQuantities_cons, sumQuantities_cons, ih]

theorem tickets_sold_eq (e : Event) (ts : List Ticket)
    (ht : e.tickets = some ts) :
    tickets_sold e = .ok ((sumQuantities ts : Int)) := by
  simp [tickets_sold, ht, orZero_aggregate, Int.ofNat_eq_coe]

theorem seats_available_eq (e : Event) (cap : Nat) (ts : List Ticket)
    (hc : e.capacity = some cap) (ht : e.tickets = some ts) :
    seats_available e
      = .ok (some (max ((cap : Int) - (sumQuantities ts : Int)) 0)) := by
  simp [seats_available, hc, ht, orZero_aggregate, Int.ofNat_eq_coe]

/-- C1: for every Event whose capacity is set (and whose tickets attribute
resolves to the list of ticket rows referencing it), `seats_available`
returns `max(capacity - sum of ticket quantities, 0)`, and the returned
number is never negative. -/
theorem seats_available_clamps_at_zero (e : Event) (cap : Nat)
    (ts : List Ticket) (hc : e.capacity = some cap)
    (ht : e.tickets = some ts) :
    seats_available e
        = .ok (some (max ((cap : Int) - (sumQuantities ts : Int)) 0)) ∧
    ∀ r : Int, seats_available e = .ok (some r) → 0 ≤ r := by
  have hval := seats_available_eq e cap ts hc ht
  refine ⟨hval, ?_⟩
  intro r hr
  rw [hval] at hr
  have h1 : some (max ((cap : Int) - (sumQuantities ts : Int)) 0) = some r :=
    by injection hr
  have h2 : max ((cap : Int) - (sumQuantities ts : Int)) 0 = r := by
    injection h1
  rw [← h2]
  exact le_max_right _ _

/-- C1 witness: with capacity 5 and ticket quantities 3 and 5 (summing to
8), `seats_available` returns 0, not -3. -/
theorem seats_available_clamps_at_zero_witness :
    seats_available (sampleEvent "Final" (some 5)
        (some [sampleTicket 3 .PAID, sampleTicket 5 .PAID]))
      = .ok (some 0) := by
  have h := (seats_available_clamps_at_zero
    (sampleEvent "Final" (some 5)
      (some [sampleTicket 3 .PAID, sampleTicket 5 .PAID]))
    5 [sampleTicket 3 .PAID, sampleTicket 5 .PAID] rfl rfl).1
  rw [h]
  rfl

/-- C2: for every Event whose tickets attribute resolves to the list of
ticket rows referencing it, `tickets_sold` returns the sum of the
`quantity` field over those rows, returns 0 when the list is empty, and
applies no status filter: rewriting every ticket's status arbitrarily
(cancelled, pending, ...) leaves the result unchanged. -/
theorem tickets_sold_sums_all_statuses (e : Event) (ts : List Ticket)
    (ht : e.tickets = some ts) :
    tickets_sold e = .ok ((sumQuantities ts : Int)) ∧
    (ts = [] → tickets_sold e = .ok 0) ∧
    ∀ f : Ticket → TicketStatus,
      tickets_sold
          { e with tickets := some (ts.map fun t => { t with status := f t }) }
        = tickets_sold e := by
  refine ⟨tickets_sold_eq e ts ht, ?_, ?_⟩
  · intro hnil
    subst hnil
    exact tickets_sold_eq e [] ht
  · intro f
    rw [tickets_sold_eq _ (ts.map fun t => { t with status := f t }) rfl,
      tickets_sold_eq e ts ht, sumQuantities_map_status]

/-- C2 witness: ticket quantities 3 (cancelled) and 4 (pending) sum to 7;
an empty ticket list gives 0. -/
theorem tickets_sold_sums_all_statuses_witness :
    tickets_sold (sampleEvent "Copa" (some 10)
        (some [sampleTicket 3 .CANCELLED, sampleTicket 4 .PENDING]))
      = .ok 7 ∧
    tickets_sold (sampleEvent "Copa" (some 10) (some [])) = .ok 0 := by
  constructor
  · have h := (tickets_sold_sums_all_statuses
      (sampleEvent "Copa" (some 10)
        (some [sampleTicket 3 .CANCELLED, sampleTicket 4 .PENDING]))
      [sampleTicket 3 .CANCELLED, sampleTicket 4 .PENDING] rfl).1
    rw [h]
    rfl
  · exact (tickets_sold_sums_all_statuses
      (sampleEvent "Copa" (some 10) (some [])) [] rfl).2.1 rfl

/-- C3: for every Event whose capacity is `None`, `seats_available`
returns the unlimited marker `None`, whatever the tickets attribute holds
(any list of tickets, or `None` itself). -/
theorem seats_available_unlimited_when_no_capacity (e : Event)
    (hc : e.capacity = none) :
    seats_available e = .ok none := by
  simp [seats_available, hc]

/-- C3 witness: capacity `None` with a large ticket volume still yields
the unlimited marker. -/
theorem seats_available_unlimited_when_no_capacity_witness :
    seats_available (sampleEvent "Maraton" none
        (some [sampleTicket 1000000 .PAID, sampleTicket 999 .CANCELLED]))
      = .ok none :=
  seats_available_unlimited_when_no_capacity
    (sampleEvent "Maraton" none
      (some [sampleTicket 1000000 .PAID, sampleTicket 999 .CANCELLED])) rfl

/-- C4: evaluation of the code at the failing input.  The claim says
`tickets_sold` may be called on any Event with no error conditions; in
the program no such call is even reachable: constructing
`Event(title='Partido', capacity=5, ...)` raises TypeError inside
`__init__` at `self.tickets = None` (direct assignment to the reverse
side of a related set is prohibited), so no Event instance on which
`tickets_sold` could behave as claimed is ever produced. -/
theorem event_init_raises_before_tickets_sold :
    eventInit "Partido" "" "" 0 none (some 5) 0 0 0
      = .error reverseDescriptorSetError :=
  rfl

/-- C5: inserting an EventAdmin row whose (user, event) pair already
occurs among the stored rows fails with a uniqueness violation and leaves
the stored rows unchanged. -/
theorem eventAdmin_duplicate_pair_rejected (rows : List EventAdminRow)
    (r0 r1 : EventAdminRow) (hmem : r0 ∈ rows)
    (hu : r1.userId = r0.userId) (he : r1.eventId = r0.eventId) :
    (insertEventAdmin rows r1).1
        = some "IntegrityError: UNIQUE constraint failed: (user, event)" ∧
    (insertEventAdmin rows r1).2 = rows := by
  have hdup : hasAdminPair rows r1.userId r1.eventId = true := by
    simp only [hasAdminPair, List.any_eq_true, Bool.and_eq_true, decide_eq_true_eq]
    exact ⟨r0, hmem, hu.symm, he.symm⟩
  simp [insertEventAdmin, hdup]

/-- C5 witness: user 7 is already admin of event 3; a second assignment of
user 7 to event 3 is rejected and the table keeps its single row. -/
theorem eventAdmin_duplicate_pair_rejected_witness :
    (insertEventAdmin [⟨7, 3, 0⟩] ⟨7, 3, 5⟩).1
        = some "IntegrityError: UNIQUE constraint failed: (user, event)" ∧
    (insertEventAdmin [⟨7, 3, 0⟩] ⟨7, 3, 5⟩).2 = [⟨7, 3, 0⟩] :=
  eventAdmin_duplicate_pair_rejected [⟨7, 3, 0⟩] ⟨7, 3, 0⟩ ⟨7, 3, 5⟩
    (List.mem_cons_self _ _) rfl rfl

/-- Sample stored state for cascade deletion: two events, one ticket and
one admin row each. -/
def ticketRowA : Ticket :=
  { id := some 1, eventId := 1, buyerId := 4, quantity := 2, total := 0,
    status := .PAID, purchasedAt := 0 }

/-- Ticket row referencing event 2. -/
def ticketRowB : Ticket :=
  { id := some 2, eventId := 2, buyerId := 5, quantity := 1, total := 0,
    status := .PENDING, purchasedAt := 0 }

/-- Admin row referencing event 1. -/
def adminRowA : EventAdminRow := ⟨7, 1, 0⟩

/-- Admin row referencing event 2. -/
def adminRowB : EventAdminRow := ⟨8, 2, 0⟩

/-- Sample database state with events 1 and 2. -/
def dbSample : DBState :=
  { eventIds := [1, 2], ticketRows := [ticketRowA, ticketRowB],
    adminRows := [adminRowA, adminRowB] }

/-- C6: deleting an Event removes every Ticket row and every EventAdmin
row whose event foreign key referenced it, while rows referencing other
events are exactly preserved. -/
theorem deleteEvent_cascades_tickets_and_admins (db : DBState) (eid : Nat) :
    (∀ t ∈ (deleteEvent db eid).ticketRows, t.eventId ≠ eid) ∧
    (∀ a ∈ (deleteEvent db eid).adminRows, a.eventId ≠ eid) ∧
    (∀ t : Ticket, t.eventId ≠ eid →
      (t ∈ (deleteEvent db eid).ticketRows ↔ t ∈ db.ticketRows)) ∧
    (∀ a : EventAdminRow, a.eventId ≠ eid →
      (a ∈ (deleteEvent db eid).adminRows ↔ a ∈ db.adminRows)) := by
  refine ⟨fun t htm => ?_, fun a ham => ?_, fun t htne => ?_, fun a hane => ?_⟩
  · have h := List.mem_filter.mp htm
    simpa using h.2
  · have h := List.mem_filter.mp ham
    simpa using h.2
  · constructor
    · intro htm
      exact (List.mem_filter.mp htm).1
    · intro htm
      exact List.mem_filter.mpr ⟨htm, by simpa using htne⟩
  · constructor
    · intro ham
      exact (List.mem_filter.mp ham).1
    · intro ham
      exact List.mem_filter.mpr ⟨ham, by simpa using hane⟩

/-- C6 witness: deleting event 1 from the sample state preserves exactly
the ticket and admin rows of event 2. -/
theorem deleteEvent_cascades_tickets_and_admins_witness :
    (ticketRowB ∈ (deleteEvent dbSample 1).ticketRows ↔
      ticketRowB ∈ dbSample.ticketRows) ∧
    (adminRowB ∈ (deleteEvent dbSample 1).adminRows ↔
      adminRowB ∈ dbSample.adminRows) := by
  have h := deleteEvent_cascades_tickets_and_admins dbSample 1
  exact ⟨h.2.2.1 ticketRowB (by decide), h.2.2.2 adminRowB (by decide)⟩

/-- C7 counterexample: Django's `PositiveIntegerField` (the declared type
of `Ticket.quantity`) accepts the value 0, so the claim that every stored
quantity is at least 1 fails at quantity 0. -/
theorem positiveIntegerField_accepts_zero :
    positiveIntegerFieldValid 0 = true ∧ ¬ ((1 : Int) ≤ 0) := by
  decide

/-- C7 (amended): every quantity the field constraint accepts is a
non-negative integer (zero allowed), and a Ticket created without
specifying quantity has quantity 1, the declared default. -/
theorem ticket_quantity_nonneg_default_one (q : Int)
    (hq : positiveIntegerFieldValid q = true) :
    0 ≤ q ∧ ticketQuantityDefault = 1 ∧
    ∀ eid buyer : Nat, (ticketInit eid buyer).quantity = 1 := by
  refine ⟨?_, rfl, fun eid buyer => rfl⟩
  simp only [positiveIntegerFieldValid, Bool.and_eq_true, decide_eq_true_eq] at hq
  exact hq.1

/-- C7 witness: quantity 2 passes the field constraint and is
non-negative. -/
theorem ticket_quantity_nonneg_default_one_witness :
    positiveIntegerFieldValid 2 = true ∧ (0 : Int) ≤ 2 :=
  ⟨by decide, (ticket_quantity_nonneg_default_one 2 (by decide)).1⟩

/-- C8: `seats_available` is a pure read: the call leaves the receiver
(and hence every Event field and every Ticket record it holds) unchanged,
and its result is determined solely by the capacity field and the ticket
records, so any two events agreeing on those — in particular the same
event at two call times on the same state — get the same result. -/
theorem seats_available_pure_read (e1 e2 : Event)
    (hc : e1.capacity = e2.capacity) (ht : e1.tickets = e2.tickets) :
    seats_available e1 = seats_available e2 ∧
    (seatsAvailableCall e1).2 = e1 := by
  constructor
  · unfold seats_available
    rw [hc, ht]
  · rfl

/-- Sample event titled A. -/
def eventSampleA : Event := sampleEvent "A" (some 5) (some [sampleTicket 2 .PAID])

/-- Sample event titled B, same capacity and tickets as A. -/
def eventSampleB : Event := sampleEvent "B" (some 5) (some [sampleTicket 2 .PAID])

/-- C8 witness: two events differing only in title get the same result,
and the call returns the receiver unchanged. -/
theorem seats_available_pure_read_witness :
    seats_available eventSampleA = seats_available eventSampleB ∧
    (seatsAvailableCall eventSampleA).2 = eventSampleA :=
  seats_available_pure_read eventSampleA eventSampleB rfl rfl

/-- C9 counterexample: at the concrete call
`Event(title='Amistoso', capacity=10, ...)`, construction raises
TypeError at `self.tickets = None` and returns no instance, so there is
no state "immediately after construction" in which the tickets and id
attributes of the built Event equal None. -/
theorem event_init_returns_no_instance :
    eventInit "Amistoso" "" "" 1 none (some 10) 0 0 0
      = .error reverseDescriptorSetError :=
  rfl

/-- C9 (amended): for every sequence of constructor arguments,
`Event(...)` never completes — the assignment `self.tickets = None` in
the custom `__init__` raises TypeError, leaving `self.id = None`
unreachable — while `Ticket(...)` does complete, with id equal to None
(the body's final `self.id = None`) and quantity at its declared default
1, the supplied arguments being swallowed by the malformed superclass
call. -/
theorem event_init_raises_and_ticket_init_id_none
    (title description location : String) (sd : Nat) (ed : Option Nat)
    (cap : Option Nat) (price : Int) (ca ua : Nat)
    (eid buyer q : Nat) (total : Int) (st : TicketStatus) (pa : Nat) :
    eventInit title description location sd ed cap price ca ua
        = .error reverseDescriptorSetError ∧
    (ticketInit eid buyer q total st pa).id = none ∧
    (ticketInit eid buyer q total st pa).quantity = 1 :=
  ⟨rfl, rfl, rfl⟩

/-- C10: with capacity set and the tickets attribute resolved,
`seats_available` never exceeds capacity, and whenever the quantity sum is
at most capacity, `seats_available` plus `tickets_sold` equals capacity. -/
theorem seats_available_tickets_sold_consistent (e : Event) (cap : Nat)
    (ts : List Ticket) (hc : e.capacity = some cap)
    (ht : e.tickets = some ts) :
    (∀ r : Int, seats_available e = .ok (some r) → r ≤ (cap : Int)) ∧
    ((sumQuantities ts : Int) ≤ (cap : Int) →
      ∀ r s : Int, seats_available e = .ok (some r) → tickets_sold e = .ok s →
        r + s = (cap : Int)) := by
  have hval := seats_available_eq e cap ts hc ht
  have hsold := tickets_sold_eq e ts ht
  constructor
  · intro r hr
    rw [hval] at hr
    have h1 : some (max ((cap : Int) - (sumQuantities ts : Int)) 0) = some r :=
      by injection hr
    have h2 : max ((cap : Int) - (sumQuantities ts : Int)) 0 = r := by
      injection h1
    rw [← h2]
    apply max_le
    · omega
    · omega
  · intro hle r s hr hs
    rw [hval] at hr
    rw [hsold] at hs
    have h1 : some (max ((cap : Int) - (sumQuantities ts : Int)) 0) = some r :=
      by injection hr
    have h2 : max ((cap : Int) - (sumQuantities ts : Int)) 0 = r := by
      injection h1
    have h3 : (sumQuantities ts : Int) = s := by injection hs
    rw [max_eq_left (by omega)] at h2
    omega

/-- C10 witness: capacity 10 with quantities 3 and 4 gives 3 available
seats, 3 is at most 10, and 3 + 7 = 10. -/
theorem seats_available_tickets_sold_consistent_witness :
    (3 : Int) ≤ ((10 : Nat) : Int) ∧ (3 : Int) + 7 = ((10 : Nat) : Int) := by
  have h := seats_available_tickets_sold_consistent
    (sampleEvent "Copa2" (some 10)
      (some [sampleTicket 3 .PAID, sampleTicket 4 .PAID]))
    10 [sampleTicket 3 .PAID, sampleTicket 4 .PAID] rfl rfl
  exact ⟨h.1 3 rfl, h.2 (by decide) 3 7 rfl rfl⟩
